import Mathlib

set_option maxRecDepth 100000

/-!
# Verification of `check_dnos_pmtu.py`

A shallow embedding of the PMTU/MSS convergence checker `check_dnos_pmtu.py`.

The program drives three interactive DNOS consoles through `pexpect`,
changes the MTU on the middle router, and polls `show system sessions`
on the client until the negotiated TCP MSS crosses a threshold.

Modelling conventions:
* Python exceptions become the inductive `PyExc`; fallible code returns
  `Except PyExc _`.
* Python truthiness of `mss and mss <= bound` is modelled by `PyVal`
  together with `truthy` (Python `and` returns the left operand when it
  is falsy, otherwise the right operand).
* String operations are implemented structurally over `List Char` so
  that every definition evaluates by kernel reduction (`decide` / `rfl`).
  Line splitting models `str.splitlines` for LF-separated console text.
* The `pexpect` stream is modelled as the full incoming character
  stream; `expect` is modelled as an incremental scan that resolves at
  the first position where one of the two patterns completes (pexpect's
  winner-takes-all race between `ERROR:.*` and `# $`).
* The `waiting.wait` library call polls the predicate once per tick and
  raises `TimeoutExpired` when the deadline passes; we model the
  deadline as a maximum number of poll ticks and the raised exception as
  an aborted-run flag.
-/

/-- Python exceptions raised by the script (and by the runtime on its
behalf: `NameError` for an unbound name, `IndexError` for a bad list
subscript). -/
inductive PyExc where
  | valueError (msg : String)
  | nameError (name : String)
  | indexError (idx : Nat)
  | dnosError (msg : String)
  | pexpectTimeout
  deriving DecidableEq, Repr

/-- The value returned by a Python expression `mss and mss <= bound`:
`None`, an `int`, or a `bool` (Python `and` short-circuits and returns
the falsy left operand unchanged). -/
inductive PyVal where
  | pyNone
  | pyInt (n : Int)
  | pyBool (b : Bool)
  deriving DecidableEq, Repr

/-- Python truthiness of a `PyVal`. -/
def truthy : PyVal → Bool
  | .pyNone => false
  | .pyInt n => decide (n ≠ 0)
  | .pyBool b => b

/-- Characters stripped by Python `str.strip()`. -/
def isSpaceChar (c : Char) : Bool :=
  c = ' ' || c = '\t' || c = '\n' || c = '\r' || c = '\x0b' || c = '\x0c'

/-- Python `str.strip()` on a character list. -/
def trimL (l : List Char) : List Char :=
  ((l.dropWhile isSpaceChar).reverse.dropWhile isSpaceChar).reverse

/-- Python `str.strip()`. -/
def pyStrip (s : String) : String := String.mk (trimL s.data)

/-- Split a character list on a single separator character, keeping
empty pieces — the semantics of Python `str.split(sep)` for a one
character separator.  Always returns at least one piece. -/
def splitOnCharL (sep : Char) : List Char → List (List Char)
  | [] => [[]]
  | c :: rest =>
    match splitOnCharL sep rest with
    | [] => [[]]
    | cur :: parts =>
      if c = sep then [] :: cur :: parts else (c :: cur) :: parts

/-- Python `str.split(sep)` for a one-character separator. -/
def strSplitOn (s : String) (sep : Char) : List String :=
  (splitOnCharL sep s.data).map String.mk

/-- Python `str.splitlines()` for LF-separated text: split on `'\n'`
and drop the trailing empty piece produced by a final newline. -/
def pySplitlines (s : String) : List String :=
  let parts := (splitOnCharL '\n' s.data).map String.mk
  if parts.getLast? = some "" then parts.dropLast else parts

/-- Python `"\n".join(lines)`. -/
def joinLines : List String → String
  | [] => ""
  | [x] => x
  | x :: y :: rest => x ++ "\n" ++ joinLines (y :: rest)

/-- Accumulating digit parser: `none` until the first digit has been
seen, `none` forever after a non-digit (mirrors Python `int()` rejecting
any non-digit). -/
def natOfDigitsAux : Option Nat → List Char → Option Nat
  | acc, [] => acc
  | acc, c :: rest =>
    if c.isDigit then natOfDigitsAux (some ((acc.getD 0) * 10 + (c.toNat - 48))) rest
    else none

/-- Parse a non-empty all-digit string to a natural number. -/
def natOfDigits (l : List Char) : Option Nat := natOfDigitsAux none l

/-- Python `int(s)`: strip surrounding whitespace, allow an optional
sign, then require at least one digit; otherwise `ValueError`. -/
def pyIntParse (s : String) : Except PyExc Int :=
  let t := trimL s.data
  match t with
  | '-' :: ds =>
    match natOfDigits ds with
    | some n => .ok (-(n : Int))
    | none => .error (.valueError ("invalid literal for int with base 10: " ++ s))
  | '+' :: ds =>
    match natOfDigits ds with
    | some n => .ok ((n : Int))
    | none => .error (.valueError ("invalid literal for int with base 10: " ++ s))
  | ds =>
    match natOfDigits ds with
    | some n => .ok ((n : Int))
    | none => .error (.valueError ("invalid literal for int with base 10: " ++ s))

/-!
## `parse_table`

Embedding of `parse_table(input, expected_columns=None)`
(`src/check_dnos_pmtu.py:162-187`): split the input into lines, skip
blank lines, split each remaining line on `|`, require at least two
separators and blank leading/trailing cells, drop those outer cells,
strip the rest, optionally enforce a column count, and collect rows in
order.  All failures are Python `ValueError`s.
-/

/-- One line's trimmed interior cells: `line.split("|")[1:-1]`, each
cell stripped. -/
def rowCells (line : String) : List String :=
  (((strSplitOn line '|').drop 1).dropLast).map pyStrip

/-- A line skipped by `parse_table` (`line.strip() == ""`). -/
def blankLine (line : String) : Bool := pyStrip line == ""

/-- The optional column-count check
`expected_columns is not None and len(row) != expected_columns`. -/
def colsMismatch (expected : Option Nat) (n : Nat) : Bool :=
  match expected with
  | some c => decide (n ≠ c)
  | none => false

/-- The line-list worker of `parse_table`; the source iterates over
`input.splitlines()` with exactly these checks in this order. -/
def parse_table_lines (expected : Option Nat) : List String → Except PyExc (List (List String))
  | [] => .ok []
  | line :: rest =>
    if pyStrip line = "" then parse_table_lines expected rest
    else
      let row := strSplitOn line '|'
      if row.length < 3 then
        .error (.valueError ("Need at least two column separators, failed to parse line " ++ line))
      else if pyStrip (row.headD "") ≠ "" then
        .error (.valueError ("Unexpected row heading " ++ row.headD ""))
      else if pyStrip (row.getLastD "") ≠ "" then
        .error (.valueError ("Unexpected row trailer " ++ row.getLastD ""))
      else
        let row2 := rowCells line
        if colsMismatch expected row2.length then
          .error (.valueError "got wrong number of columns")
        else
          match parse_table_lines expected rest with
          | .ok t => .ok (row2 :: t)
          | .error e => .error e

/-- `parse_table(input, expected_columns)`. -/
def parse_table (input : String) (expected : Option Nat) : Except PyExc (List (List String)) :=
  parse_table_lines expected (pySplitlines input)

/-- Specification-level shape of a well-formed table line with `c`
interior cells: non-blank, exactly `c + 2` pipe-separated pieces, and
blank leading and trailing pieces. -/
def wfLine (c : Nat) (line : String) : Bool :=
  !(pyStrip line == "") &&
  ((strSplitOn line '|').length == c + 2) &&
  (pyStrip ((strSplitOn line '|').headD "") == "") &&
  (pyStrip ((strSplitOn line '|').getLastD "") == "")

/-- Specification-level shape of a malformed non-blank table line:
fewer than two separators, a non-blank leading or trailing piece, or
(when a column count is enforced) the wrong number of cells. -/
def badLine (expected : Option Nat) (line : String) : Bool :=
  !(pyStrip line == "") &&
  (decide ((strSplitOn line '|').length < 3) ||
   !(pyStrip ((strSplitOn line '|').headD "") == "") ||
   !(pyStrip ((strSplitOn line '|').getLastD "") == "") ||
   colsMismatch expected (rowCells line).length)

/-!
## Configuration (`Opts`, `src/check_dnos_pmtu.py:103-128`, with the
setup- and CLI-default values from `init_opts` / `create_parser`)
-/

/-- The configurable values the core logic reads.  Hostnames, spawn
commands and interface names only feed the excluded I/O layer and are
omitted. -/
structure Opts where
  ipaddr_client : Option String
  ipaddr_server : Option String
  lomtu : Int
  himtu : Int
  mss_margin : Int
  do_clear_bgp_neighbors : Bool
  timeout_himss_reached : Nat
  timeout_lomss_reached : Nat
  timeout_himss_restored : Nat
  steady_sleep_time : Nat
  deriving DecidableEq, Repr

/-- The configuration an actual run uses: class defaults (`lomtu = 2000`,
`himtu = 9100`, `mss_margin = 100`, `steady_sleep_time = 3`), the
addresses assigned in `init_opts`, and the `argparse` defaults for the
flags and timeouts. -/
def defaultOpts : Opts :=
  { ipaddr_client := some "18.18.18.18"
    ipaddr_server := some "11.11.11.11"
    lomtu := 2000
    himtu := 9100
    mss_margin := 100
    do_clear_bgp_neighbors := true
    timeout_himss_reached := 30
    timeout_lomss_reached := 30
    timeout_himss_restored := 300
    steady_sleep_time := 3 }

/-- Python truthiness of an optional string (`if self.opts.ipaddr_client:`):
`None` and the empty string are falsy. -/
def pyTruthyStr : Option String → Bool
  | none => false
  | some s => !(s == "")

/-!
## `Main.read_last_mss` (`src/check_dnos_pmtu.py:257-296`)

The per-row filter runs in source order: `row[1] != 'TCP'` skips,
`row[4] != 'ESTABLISHED'` skips, then the client and server address
filters compare only the host portion (`row[i].split(":")[0]`).  A
second surviving row triggers
`raise Exception("Multiple matching TCP sessions %r and %r" % (found_row, row))`;
evaluating the format arguments reads the unbound name `found_row`, so
Python raises `NameError` before the `Exception` is ever constructed.
-/

/-- The server-address filter tail of the row check. -/
def rowCheckServer (opts : Opts) (row : List String) : Except PyExc Bool :=
  if pyTruthyStr opts.ipaddr_server then
    match row[3]? with
    | none => .error (.indexError 3)
    | some cell =>
      if ((strSplitOn cell ':').headD "") ≠ opts.ipaddr_server.getD "" then .ok false
      else .ok true
  else .ok true

/-- Does one row survive the loop's filters?  `Except` because Python
list subscripts on a too-short row raise `IndexError`. -/
def rowCheck (opts : Opts) (row : List String) : Except PyExc Bool :=
  match row[1]? with
  | none => .error (.indexError 1)
  | some proto =>
    if proto ≠ "TCP" then .ok false
    else
      match row[4]? with
      | none => .error (.indexError 4)
      | some st =>
        if st ≠ "ESTABLISHED" then .ok false
        else if pyTruthyStr opts.ipaddr_client then
          match row[2]? with
          | none => .error (.indexError 2)
          | some cell =>
            if ((strSplitOn cell ':').headD "") ≠ opts.ipaddr_client.getD "" then .ok false
            else rowCheckServer opts row
        else rowCheckServer opts row

/-- The `for row in tab` accumulate-and-reject-on-second-match loop of
`read_last_mss`, carrying `found_entry`. -/
def scanRows (opts : Opts) : Option (List String) → List (List String) → Except PyExc (Option (List String))
  | found, [] => .ok found
  | found, row :: rest =>
    match rowCheck opts row with
    | .error e => .error e
    | .ok false => scanRows opts found rest
    | .ok true =>
      match found with
      | some _ => .error (.nameError "found_row")
      | none => scanRows opts (some row) rest

/-- The tail of `read_last_mss` after the table has been parsed:
run the scan loop, fail with `ValueError` when nothing matched, and
return `int(found_entry[7])`. -/
def read_mss_table (opts : Opts) (tab : List (List String)) : Except PyExc Int :=
  match scanRows opts none tab with
  | .error e => .error e
  | .ok none => .error (.valueError "No matching TCP sessions")
  | .ok (some row) =>
    match row[7]? with
    | none => .error (.indexError 7)
    | some cell => pyIntParse cell

/-- One poll's raw query result: the output of the
`show system sessions | include ...` command on the client console, or
the exception `dnos_cmd` raised. -/
abbrev Sample := Except PyExc String

/-- `read_last_mss` for one poll sample: propagate a command failure,
parse the output with `parse_table` (no column count enforced), then
select the unique matching session row. -/
def read_last_mss (opts : Opts) (s : Sample) : Except PyExc Int :=
  match s with
  | .error e => .error e
  | .ok output =>
    match parse_table output none with
    | .error e => .error e
    | .ok tab => read_mss_table opts tab

/-- Specification-level row filter (section 4.3 of the spec): protocol
`TCP`, state `ESTABLISHED`, and host-portion address comparisons.  Total
(a too-short row simply does not match); `rowCheck_eq_rowMatches` below
relates it to the source's fallible scan for rows of realistic width. -/
def rowMatches (opts : Opts) (row : List String) : Bool :=
  ((row[1]?).getD "" == "TCP") &&
  ((row[4]?).getD "" == "ESTABLISHED") &&
  (!pyTruthyStr opts.ipaddr_client ||
    ((strSplitOn ((row[2]?).getD "") ':').headD "" == opts.ipaddr_client.getD "")) &&
  (!pyTruthyStr opts.ipaddr_server ||
    ((strSplitOn ((row[3]?).getD "") ':').headD "" == opts.ipaddr_server.getD ""))

/-!
## `Main` state and the threshold checks (`src/check_dnos_pmtu.py:190,298-320`)
-/

/-- The single piece of mutable state on `Main`: `last_mss_value`. -/
structure MainSt where
  last_mss_value : Option Int
  deriving DecidableEq, Repr

/-- `try_read_last_mss`: a bare `except:` turns any failure into `None`
and leaves `last_mss_value` untouched; a success stores the value. -/
def try_read_last_mss (st : MainSt) (r : Except PyExc Int) : MainSt × Option Int :=
  match r with
  | .error _ => (st, none)
  | .ok v => ({ last_mss_value := some v }, some v)

/-- The Python expression `mss and mss <= self.opts.lomtu`. -/
def lomss_predicate (opts : Opts) (mss : Option Int) : PyVal :=
  match mss with
  | none => .pyNone
  | some v => if v = 0 then .pyInt 0 else .pyBool (decide (v ≤ opts.lomtu))

/-- The Python expression
`mss and mss >= self.opts.himtu - self.opts.mss_margin`. -/
def himss_predicate (opts : Opts) (mss : Option Int) : PyVal :=
  match mss with
  | none => .pyNone
  | some v => if v = 0 then .pyInt 0 else .pyBool (decide (opts.himtu - opts.mss_margin ≤ v))

/-- `check_lomss_reached` evaluated on one poll sample. -/
def check_lomss_reached (opts : Opts) (st : MainSt) (s : Sample) : MainSt × PyVal :=
  let r := try_read_last_mss st (read_last_mss opts s)
  (r.1, lomss_predicate opts r.2)

/-- `check_himss_reached` evaluated on one poll sample. -/
def check_himss_reached (opts : Opts) (st : MainSt) (s : Sample) : MainSt × PyVal :=
  let r := try_read_last_mss st (read_last_mss opts s)
  (r.1, himss_predicate opts r.2)

/-- `check_himss_restored` evaluated on one poll sample (same body as
`check_himss_reached` in the source). -/
def check_himss_restored (opts : Opts) (st : MainSt) (s : Sample) : MainSt × PyVal :=
  let r := try_read_last_mss st (read_last_mss opts s)
  (r.1, himss_predicate opts r.2)

/-!
## The poll loop and the orchestrator
(`Main._verbose_wait` / `Main.run_pmtu_test`,
`src/check_dnos_pmtu.py:329-364`)

`waiting.wait(func, timeout_seconds=...)` calls `func` repeatedly,
sleeping between calls, and raises `waiting.TimeoutExpired` once the
deadline passes without a truthy result.  We model the deadline as a
maximum number of poll ticks (`fuel`), each tick consuming one
environment sample; exhausting either the fuel or the sample list is
the deadline.  The raised `TimeoutExpired` propagates out of
`_verbose_wait` and `run_pmtu_test` — modelled by `RunOut.aborted` —
and `Main.main`'s `finally:` still logs `last_mss_value`.
-/

/-- `waiting.wait` on one phase: returns the state after the loop and
whether the predicate became truthy before the deadline. -/
def waiting_wait (step : MainSt → Sample → MainSt × PyVal) :
    MainSt → List Sample → Nat → MainSt × Bool
  | st, _, 0 => (st, false)
  | st, [], _ + 1 => (st, false)
  | st, r :: rest, fuel + 1 =>
    let p := step st r
    if truthy p.2 then (p.1, true) else waiting_wait step p.1 rest fuel

/-- Externally visible actions of `run_pmtu_test`, in order: the two
liveness `show bgp summary` commands are elided, the MTU configuration
script on the middle console is `setPmtu`, the optional
`clear bgp neighbor *` is `clearBgp`, a `steady_sleep` pause is
`sleepSteady`, and each phase's poll loop is `poll` (phases numbered
1, 2, 3 for high / low / restored-high). -/
inductive Event where
  | bgpSummary (who : String)
  | setPmtu (mtu : Int)
  | clearBgp
  | sleepSteady (secs : Nat)
  | poll (phase : Nat)
  deriving DecidableEq, Repr

/-- The `clear bgp neighbor *` step, gated by `do_clear_bgp_neighbors`. -/
def clear_events (opts : Opts) : List Event :=
  if opts.do_clear_bgp_neighbors then [.clearBgp] else []

/-- `steady_sleep`: sleeps only when `steady_sleep_time` is truthy
(non-zero). -/
def steady_events (opts : Opts) : List Event :=
  if opts.steady_sleep_time ≠ 0 then [.sleepSteady opts.steady_sleep_time] else []

/-- The outcome of `run_pmtu_test`: final `Main` state, the ordered
trace of externally visible actions, and whether a
`waiting.TimeoutExpired` aborted the run. -/
structure RunOut where
  st : MainSt
  events : List Event
  aborted : Bool
  deriving DecidableEq, Repr

/-- `run_pmtu_test`: configure the high MTU, optionally clear BGP
neighbours, poll for the high MSS; steady-sleep; configure the low MTU,
poll for the low MSS; steady-sleep; configure the high MTU again, poll
for the restored high MSS.  A timed-out poll raises, so every later
step is skipped.  The three sample lists are the environment's answers
to the three phases' query commands; the MTU configuration commands are
modelled on their success path (a `CommandError` there would abort the
run before any of the behaviour the claims are about). -/
def run_pmtu_test (opts : Opts) (st0 : MainSt) (s1 s2 s3 : List Sample) : RunOut :=
  let pre : List Event :=
    [.bgpSummary "server", .bgpSummary "client", .setPmtu opts.himtu] ++
      clear_events opts ++ [.poll 1]
  let w1 := waiting_wait (check_himss_reached opts) st0 s1 opts.timeout_himss_reached
  if w1.2 = true then
    let ev2 := pre ++ steady_events opts ++ [.setPmtu opts.lomtu, .poll 2]
    let w2 := waiting_wait (check_lomss_reached opts) w1.1 s2 opts.timeout_lomss_reached
    if w2.2 = true then
      let ev3 := ev2 ++ steady_events opts ++ [.setPmtu opts.himtu, .poll 3]
      let w3 := waiting_wait (check_himss_restored opts) w2.1 s3 opts.timeout_himss_restored
      if w3.2 = true then ⟨w3.1, ev3, false⟩ else ⟨w3.1, ev3, true⟩
    else ⟨w2.1, ev2, true⟩
  else ⟨w1.1, pre, true⟩

/-- `Main.main`'s `try/finally`: whatever `run_pmtu_test` does, the
`finally:` block reports the final `last_mss_value`.  The second
component is the reported value. -/
def main_report (opts : Opts) (st0 : MainSt) (s1 s2 s3 : List Sample) :
    RunOut × Option Int :=
  let r := run_pmtu_test opts st0 s1 s2 s3
  (r, r.st.last_mss_value)

/-!
## `dnos_cmd` (`src/check_dnos_pmtu.py:135-150`)

`spawn.expect(["ERROR:.*", "# $"])` races two patterns over the
incoming character stream.  Incremental regex matching means each
pattern resolves at the first stream position where its match
completes: `ERROR:.*` as soon as the text `ERROR:` is fully present,
`# $` as soon as the accumulated buffer ends with `"# "`.  The two
patterns cannot complete on the same character (one ends in `':'`, the
other in `' '`), so the scan below checking the error pattern first is
exactly pexpect's earliest-match rule.
-/

/-- The error marker of the `ERROR:.*` pattern. -/
def errPat : List Char := "ERROR:".data

/-- The prompt marker of the `# $` pattern. -/
def promptPat : List Char := "# ".data

/-- Does `l` end with `pat`? -/
def endsWithPat (l pat : List Char) : Bool :=
  pat.reverse.isPrefixOf l.reverse

/-- Resolution of one `spawn.expect` call. -/
inductive ExpectRes where
  | errAt (buf : List Char)
  | promptAt (before : List Char)
  | timeoutEof
  deriving DecidableEq, Repr

/-- Incremental scan of the incoming stream: consume one character,
then resolve if a pattern just completed.  `errAt` carries the text
buffered so far (the exception message stringifies the spawn state);
`promptAt` carries `spawn.before`, the text preceding the prompt
match.  End of stream without a match is a fatal pexpect
timeout/EOF. -/
def scanExpect : List Char → List Char → ExpectRes
  | _, [] => .timeoutEof
  | buf, c :: rest =>
    let buf' := buf ++ [c]
    if endsWithPat buf' errPat then .errAt buf'
    else if endsWithPat buf' promptPat then
      .promptAt (buf'.take (buf'.length - promptPat.length))
    else scanExpect buf' rest

/-- `dnos_cmd(spawn, cmd, no_more)`: the first component is the line
actually sent (`cmd + " | no-more"` when paging is suppressed), the
second the command's result: `DNOSPexpectException` when the error
pattern wins, otherwise `spawn.before` with its first line (the echoed
command) and last line (the new prompt) stripped. -/
def dnos_cmd (incoming : String) (cmd : String) (no_more : Bool) :
    String × Except PyExc String :=
  let sent := if no_more then cmd ++ " | no-more" else cmd
  match scanExpect [] incoming.data with
  | .errAt buf => (sent, .error (.dnosError ("DNOS CLI ERROR: " ++ String.mk buf)))
  | .promptAt before =>
    (sent, .ok (joinLines (((pySplitlines (String.mk before)).drop 1).dropLast)))
  | .timeoutEof => (sent, .error .pexpectTimeout)

/-- Search positions `n, n+1, ..., n+k-1` for the first prefix of `s`
that ends with `pat`. -/
def firstEndAux (pat s : List Char) : Nat → Nat → Option Nat
  | _, 0 => none
  | n, k + 1 =>
    if endsWithPat (s.take n) pat then some n else firstEndAux pat s (n + 1) k

/-- The first position of `s` at which a match of `pat` completes
(the end index of the first occurrence of `pat` in `s`). -/
def firstEndIdx (s pat : List Char) : Option Nat :=
  firstEndAux pat s 0 (s.length + 1)

/-- The race between the two expect patterns, phrased over first match
completion positions `n, ..., n+k-1` of the whole stream: the earlier
completion wins (they can never tie).  `scan_race` below proves the
incremental scan equal to this. -/
def raceFrom (s : List Char) (n k : Nat) : ExpectRes :=
  match firstEndAux errPat s n k, firstEndAux promptPat s n k with
  | none, none => .timeoutEof
  | some e, none => .errAt (s.take e)
  | none, some p => .promptAt (s.take (p - promptPat.length))
  | some e, some p =>
    if e ≤ p then .errAt (s.take e) else .promptAt (s.take (p - promptPat.length))

/-!
## Concrete console fixtures used by witnesses and counterexamples

`show system sessions` rows as the client console prints them, with the
cells the inspector reads: index 1 protocol, 2 local (client) endpoint,
3 remote (server) endpoint, 4 state, 7 negotiated MSS.
-/

/-- A session row whose MSS is 9000. -/
def out9000 : String :=
  "| 1 | TCP | 18.18.18.18:51000 | 11.11.11.11:179 | ESTABLISHED | a | b | 9000 |"

/-- A session row whose MSS is 2000. -/
def out2000 : String :=
  "| 1 | TCP | 18.18.18.18:51000 | 11.11.11.11:179 | ESTABLISHED | a | b | 2000 |"

/-- A session row whose MSS is 0. -/
def outMss0 : String :=
  "| 1 | TCP | 18.18.18.18:51000 | 11.11.11.11:179 | ESTABLISHED | a | b | 0 |"

/-- Output with two rows that both survive the endpoint filters: the
ambiguous-test-setup situation. -/
def outAmbiguous : String := out9000 ++ "\n" ++ out2000

/-- A failed query command (the poll sample raises). -/
def errSample : Sample := Except.error (PyExc.dnosError "DNOS CLI ERROR: ")

/-- The parsed form of `out9000`. -/
def demoRow : List String :=
  ["1", "TCP", "18.18.18.18:51000", "11.11.11.11:179", "ESTABLISHED", "a", "b", "9000"]

/-- A second parsed row matching the same endpoint filters. -/
def demoRow2 : List String :=
  ["2", "TCP", "18.18.18.18:51002", "11.11.11.11:179", "ESTABLISHED", "a", "b", "1400"]

/-!
## Lemmas: the expect-pattern race
-/

theorem take_append_len_add {α : Type} (l₁ l₂ : List α) (n : Nat) :
    (l₁ ++ l₂).take (l₁.length + n) = l₁ ++ l₂.take n := by
  induction l₁ with
  | nil => simp
  | cons a t ih =>
    have h : t.length + 1 + n = (t.length + n) + 1 := by omega
    simp [List.cons_append, h, List.take_succ_cons, ih]

/-- The two patterns end in different characters, so no buffer can end
with both. -/
theorem not_both_patterns (l : List Char) (he : endsWithPat l errPat = true) :
    endsWithPat l promptPat = false := by
  unfold endsWithPat at he ⊢
  have h1 : errPat.reverse = ':' :: ['R', 'O', 'R', 'R', 'E'] := by decide
  have h2 : promptPat.reverse = [' ', '#'] := by decide
  rw [h1] at he
  rw [h2]
  cases hl : l.reverse with
  | nil => rw [hl] at he; simp [List.isPrefixOf] at he
  | cons b bt =>
    rw [hl] at he
    simp only [List.isPrefixOf, Bool.and_eq_true, beq_iff_eq] at he
    obtain ⟨hb, -⟩ := he
    simp only [List.isPrefixOf]
    rw [← hb]
    simp

theorem firstEndAux_ge (pat s : List Char) :
    ∀ k n m, firstEndAux pat s n k = some m → n ≤ m := by
  intro k
  induction k with
  | zero => intro n m h; simp [firstEndAux] at h
  | succ k ih =>
    intro n m h
    simp only [firstEndAux] at h
    split at h
    · exact (Option.some_inj.mp h) ▸ Nat.le_refl n
    · exact Nat.le_of_succ_le (ih (n + 1) m h)

/-- The incremental expect scan resolves exactly as the
earliest-completion race over the remaining positions. -/
theorem scan_race (rest : List Char) :
    ∀ buf, scanExpect buf rest = raceFrom (buf ++ rest) (buf.length + 1) rest.length := by
  induction rest with
  | nil => intro buf; simp [scanExpect, raceFrom, firstEndAux]
  | cons c rest ih =>
    intro buf
    have htake : (buf ++ c :: rest).take (buf.length + 1) = buf ++ [c] := by
      simpa using take_append_len_add buf (c :: rest) 1
    by_cases he : endsWithPat (buf ++ [c]) errPat = true
    · have hnp : endsWithPat (buf ++ [c]) promptPat = false := not_both_patterns _ he
      have hE : firstEndAux errPat (buf ++ c :: rest) (buf.length + 1) (rest.length + 1)
          = some (buf.length + 1) := by
        simp [firstEndAux, htake, he]
      have hP : firstEndAux promptPat (buf ++ c :: rest) (buf.length + 1) (rest.length + 1)
          = firstEndAux promptPat (buf ++ c :: rest) (buf.length + 2) rest.length := by
        simp [firstEndAux, htake, hnp]
      rw [show scanExpect buf (c :: rest) = .errAt (buf ++ [c]) by simp [scanExpect, he]]
      unfold raceFrom
      simp only [List.length_cons]
      rw [hE, hP]
      cases hP2 : firstEndAux promptPat (buf ++ c :: rest) (buf.length + 2) rest.length with
      | none => simp [htake]
      | some p =>
        have hge : buf.length + 1 ≤ p := by
          have := firstEndAux_ge promptPat (buf ++ c :: rest) rest.length (buf.length + 2) p hP2
          omega
        simp [htake, hge]
    · by_cases hp : endsWithPat (buf ++ [c]) promptPat = true
      · have hE : firstEndAux errPat (buf ++ c :: rest) (buf.length + 1) (rest.length + 1)
            = firstEndAux errPat (buf ++ c :: rest) (buf.length + 2) rest.length := by
          simp [firstEndAux, htake, he]
        have hP : firstEndAux promptPat (buf ++ c :: rest) (buf.length + 1) (rest.length + 1)
            = some (buf.length + 1) := by
          simp [firstEndAux, htake, hp]
        have hpay : (buf ++ c :: rest).take (buf.length + 1 - promptPat.length)
            = (buf ++ [c]).take (buf.length + 1 - promptPat.length) := by
          rw [← htake, List.take_take]
          congr 1
          omega
        rw [show scanExpect buf (c :: rest)
              = .promptAt ((buf ++ [c]).take ((buf ++ [c]).length - promptPat.length)) by
            simp [scanExpect, he, hp]]
        unfold raceFrom
        simp only [List.length_cons]
        rw [hE, hP]
        cases hE2 : firstEndAux errPat (buf ++ c :: rest) (buf.length + 2) rest.length with
        | none => simp [hpay]
        | some e =>
          have hge : buf.length + 2 ≤ e :=
            firstEndAux_ge errPat (buf ++ c :: rest) rest.length (buf.length + 2) e hE2
          have hnotle : ¬ (e ≤ buf.length + 1) := by omega
          simp [hpay, hnotle]
      · have hE : firstEndAux errPat (buf ++ c :: rest) (buf.length + 1) (rest.length + 1)
            = firstEndAux errPat (buf ++ c :: rest) (buf.length + 2) rest.length := by
          simp [firstEndAux, htake, he]
        have hP : firstEndAux promptPat (buf ++ c :: rest) (buf.length + 1) (rest.length + 1)
            = firstEndAux promptPat (buf ++ c :: rest) (buf.length + 2) rest.length := by
          simp [firstEndAux, htake, hp]
        rw [show scanExpect buf (c :: rest) = scanExpect (buf ++ [c]) rest by
              simp [scanExpect, he, hp],
            ih (buf ++ [c])]
        unfold raceFrom
        simp only [List.append_assoc, List.singleton_append, List.length_append,
          List.length_singleton, List.length_cons, List.length_nil, Nat.zero_add]
        rw [show buf.length + 1 + 1 = buf.length + 2 from rfl]
        rw [hE, hP]

theorem scanExpect_eq_race (s : List Char) :
    scanExpect [] s = raceFrom s 1 s.length := by
  simpa using scan_race s []

theorem firstEndIdx_shift (pat s : List Char) (h0 : endsWithPat [] pat = false) :
    firstEndIdx s pat = firstEndAux pat s 1 s.length := by
  simp [firstEndIdx, firstEndAux, h0]

/-- C5 (confirmed): `dnos_cmd` resolves a command by a race between the
two stream patterns.  The paging-disable suffix ` | no-more` is appended
to the command text before sending exactly when `no_more` is set; and
the result is determined by whichever marker completes first in the
incoming stream: the error marker first (or alone) yields the
`DNOSPexpectException` failure carrying the buffered text, the prompt
marker first (or alone) yields success carrying `spawn.before` with its
first line (the echoed command) and last line (the new prompt) removed;
neither marker is a fatal pexpect timeout. -/
theorem C5_dnos_cmd_race (incoming cmd : String) (no_more : Bool) :
    (dnos_cmd incoming cmd no_more).1 = (if no_more then cmd ++ " | no-more" else cmd) ∧
    (dnos_cmd incoming cmd no_more).2 =
      (match firstEndIdx incoming.data errPat, firstEndIdx incoming.data promptPat with
       | none, none => Except.error PyExc.pexpectTimeout
       | some e, none =>
         Except.error (PyExc.dnosError ("DNOS CLI ERROR: " ++ String.mk (incoming.data.take e)))
       | none, some p =>
         Except.ok (joinLines
           (((pySplitlines (String.mk (incoming.data.take (p - 2)))).drop 1).dropLast))
       | some e, some p =>
         if e ≤ p then
           Except.error (PyExc.dnosError ("DNOS CLI ERROR: " ++ String.mk (incoming.data.take e)))
         else
           Except.ok (joinLines
             (((pySplitlines (String.mk (incoming.data.take (p - 2)))).drop 1).dropLast))) := by
  constructor
  · unfold dnos_cmd
    cases scanExpect [] incoming.data <;> rfl
  have hE0 : endsWithPat [] errPat = false := by decide
  have hP0 : endsWithPat [] promptPat = false := by decide
  have hplen : promptPat.length = 2 := by decide
  unfold dnos_cmd
  rw [scanExpect_eq_race]
  unfold raceFrom
  rw [← firstEndIdx_shift errPat incoming.data hE0,
      ← firstEndIdx_shift promptPat incoming.data hP0, hplen]
  cases hEv : firstEndIdx incoming.data errPat with
  | none =>
    cases hPv : firstEndIdx incoming.data promptPat with
    | none => rfl
    | some p => rfl
  | some e =>
    cases hPv : firstEndIdx incoming.data promptPat with
    | none => rfl
    | some p =>
      by_cases hle : e ≤ p
      · simp [hle]
      · simp [hle]


/-!
## Lemmas: `parse_table`
-/

theorem rowCells_length (c : Nat) (l : String) (hw : wfLine c l = true) :
    (rowCells l).length = c := by
  simp only [wfLine, Bool.and_eq_true, beq_iff_eq] at hw
  obtain ⟨⟨⟨-, hlen⟩, -⟩, -⟩ := hw
  simp only [rowCells, List.length_map, List.length_dropLast, List.length_drop, hlen]
  omega

/-- A list of blank-or-well-formed lines parses to exactly its
non-blank lines' trimmed interior cells, in order. -/
theorem parse_table_lines_wf (c : Nat) (expected : Option Nat)
    (hc : 1 ≤ c) (hexp : expected = none ∨ expected = some c) :
    ∀ lines : List String,
      (∀ l ∈ lines, pyStrip l = "" ∨ wfLine c l = true) →
      parse_table_lines expected lines
        = Except.ok ((lines.filter (fun l => !blankLine l)).map rowCells) := by
  intro lines
  induction lines with
  | nil => intro _; rfl
  | cons l rest ih =>
    intro h
    have hrest : ∀ x ∈ rest, pyStrip x = "" ∨ wfLine c x = true :=
      fun x hx => h x (List.mem_cons_of_mem l hx)
    by_cases hb : pyStrip l = ""
    · simp only [parse_table_lines]
      rw [if_pos hb, ih hrest]
      simp [List.filter_cons, blankLine, hb]
    · have hw : wfLine c l = true := (h l (List.mem_cons_self l rest)).resolve_left hb
      have hw' := hw
      simp only [wfLine, Bool.and_eq_true, beq_iff_eq] at hw'
      obtain ⟨⟨⟨-, hlen⟩, hhead⟩, hlast⟩ := hw'
      have h3 : ¬ ((strSplitOn l '|').length < 3) := by omega
      have hcols : ¬ (colsMismatch expected (rowCells l).length = true) := by
        rcases hexp with rfl | rfl
        · simp [colsMismatch]
        · simp [colsMismatch, rowCells_length c l hw]
      simp only [parse_table_lines]
      rw [if_neg hb, if_neg h3, if_neg (not_not_intro hhead), if_neg (not_not_intro hlast),
          if_neg hcols, ih hrest]
      simp [List.filter_cons, blankLine, hb]

/-- Any malformed non-blank line anywhere in the input makes the parse
fail. -/
theorem parse_table_lines_bad (expected : Option Nat) :
    ∀ lines : List String,
      (∃ l ∈ lines, badLine expected l = true) →
      ∃ e, parse_table_lines expected lines = Except.error e := by
  intro lines
  induction lines with
  | nil => rintro ⟨l, hl, -⟩; exact absurd hl (List.not_mem_nil l)
  | cons l rest ih =>
    rintro ⟨l₀, hl₀, hbad⟩
    rcases List.mem_cons.mp hl₀ with rfl | hmem
    · simp only [badLine, Bool.and_eq_true, Bool.or_eq_true, Bool.not_eq_true',
        beq_eq_false_iff_ne, ne_eq, decide_eq_true_eq] at hbad
      obtain ⟨hnb, hdisj⟩ := hbad
      simp only [parse_table_lines]
      rw [if_neg hnb]
      by_cases h3 : (strSplitOn l₀ '|').length < 3
      · exact ⟨_, by rw [if_pos h3]⟩
      · rw [if_neg h3]
        by_cases hh : pyStrip ((strSplitOn l₀ '|').headD "") ≠ ""
        · exact ⟨_, by rw [if_pos hh]⟩
        · rw [if_neg hh]
          by_cases ht : pyStrip ((strSplitOn l₀ '|').getLastD "") ≠ ""
          · exact ⟨_, by rw [if_pos ht]⟩
          · rw [if_neg ht]
            have hx : colsMismatch expected (rowCells l₀).length = true := by
              rcases hdisj with ((h | h) | h) | h
              · exact absurd h h3
              · exact absurd h (by simpa using hh)
              · exact absurd h (by simpa using ht)
              · exact h
            rw [if_pos hx]
            exact ⟨_, rfl⟩
    · obtain ⟨e, he⟩ := ih ⟨l₀, hmem, hbad⟩
      simp only [parse_table_lines]
      by_cases hb : pyStrip l = ""
      · rw [if_pos hb]; exact ⟨e, he⟩
      · rw [if_neg hb]
        by_cases h3 : (strSplitOn l '|').length < 3
        · exact ⟨_, by rw [if_pos h3]⟩
        · rw [if_neg h3]
          by_cases hh : pyStrip ((strSplitOn l '|').headD "") ≠ ""
          · exact ⟨_, by rw [if_pos hh]⟩
          · rw [if_neg hh]
            by_cases ht : pyStrip ((strSplitOn l '|').getLastD "") ≠ ""
            · exact ⟨_, by rw [if_pos ht]⟩
            · rw [if_neg ht]
              by_cases hx : colsMismatch expected (rowCells l).length = true
              · rw [if_pos hx]; exact ⟨_, rfl⟩
              · rw [if_neg hx, he]
                exact ⟨e, rfl⟩

/-- C4 (confirmed): well-formed pipe tables of `k` non-blank lines with
a uniform interior cell count `c` parse to exactly those `k` rows, in
order, blank lines skipped and cells trimmed, each row of length `c`
(also when `expected_columns = c` is enforced); and any non-blank line
lacking the leading or trailing empty cell, or with fewer than two
separators, or (under an enforced count) with the wrong number of
cells, makes `parse_table` fail with a `ValueError`. -/
theorem C4_parse_table_correct :
    (∀ (input : String) (c : Nat) (expected : Option Nat),
      1 ≤ c → (expected = none ∨ expected = some c) →
      (∀ l ∈ pySplitlines input, pyStrip l = "" ∨ wfLine c l = true) →
      parse_table input expected
        = Except.ok (((pySplitlines input).filter (fun l => !blankLine l)).map rowCells)
      ∧ ∀ r ∈ ((pySplitlines input).filter (fun l => !blankLine l)).map rowCells,
          r.length = c)
    ∧ (∀ (input : String) (expected : Option Nat),
      (∃ l ∈ pySplitlines input, badLine expected l = true) →
      ∃ e, parse_table input expected = Except.error e) := by
  constructor
  · intro input c expected hc hexp h
    refine ⟨parse_table_lines_wf c expected hc hexp _ h, ?_⟩
    intro r hr
    obtain ⟨l, hlf, rfl⟩ := List.mem_map.mp hr
    have hmf := List.mem_filter.mp hlf
    have hnb : ¬ (pyStrip l = "") := by
      simpa [blankLine] using hmf.2
    exact rowCells_length c l ((h l hmf.1).resolve_left hnb)
  · intro input expected hbad
    exact parse_table_lines_bad expected _ hbad

/-- Witness for C4 at a concrete table (both conjuncts; the failure
conjunct at a separator-free line). -/
theorem C4_parse_table_correct_witness :
    (parse_table "| a | b |\n\n|c|d|" (some 2)
        = Except.ok (((pySplitlines "| a | b |\n\n|c|d|").filter
            (fun l => !blankLine l)).map rowCells)
      ∧ ∀ r ∈ ((pySplitlines "| a | b |\n\n|c|d|").filter
            (fun l => !blankLine l)).map rowCells, r.length = 2)
    ∧ ∃ e, parse_table "nopipes" none = Except.error e := by
  constructor
  · exact (C4_parse_table_correct).1 "| a | b |\n\n|c|d|" 2 (some 2)
      (by decide) (Or.inr rfl) (by decide)
  · exact (C4_parse_table_correct).2 "nopipes" none ⟨"nopipes", by decide, by decide⟩


/-!
## Lemmas: the TCP session inspector
-/

/-- On rows wide enough to carry all the cells the loop reads, the
source's fallible per-row filter agrees with the total
specification-level filter `rowMatches`. -/
theorem rowCheck_eq_rowMatches (opts : Opts) (row : List String) (h : 8 ≤ row.length) :
    rowCheck opts row = Except.ok (rowMatches opts row) := by
  have h1 : row[1]? = some row[1] := List.getElem?_eq_getElem (by omega)
  have h2 : row[2]? = some row[2] := List.getElem?_eq_getElem (by omega)
  have h3 : row[3]? = some row[3] := List.getElem?_eq_getElem (by omega)
  have h4 : row[4]? = some row[4] := List.getElem?_eq_getElem (by omega)
  unfold rowCheck rowCheckServer rowMatches
  rw [h1, h2, h3, h4]
  by_cases hp : row[1] = "TCP" <;>
    by_cases hs : row[4] = "ESTABLISHED" <;>
      by_cases hc : pyTruthyStr opts.ipaddr_client = true <;>
        by_cases hsv : pyTruthyStr opts.ipaddr_server = true <;>
          by_cases hcm : (strSplitOn row[2] ':').headD "" = opts.ipaddr_client.getD "" <;>
            by_cases hsm : (strSplitOn row[3] ':').headD "" = opts.ipaddr_server.getD "" <;>
              simp_all

/-- The accumulate-and-reject-on-second-match loop, characterised by the
filtered survivor list: no survivor leaves `found` unchanged, a unique
survivor is returned, and a second survivor raises the `NameError` from
the unbound `found_row` in the exception's format arguments. -/
theorem scanRows_characterisation (opts : Opts) (rows : List (List String))
    (h : ∀ r ∈ rows, 8 ≤ r.length) :
    ∀ found : Option (List String),
      scanRows opts found rows =
        (match found, rows.filter (fun r => rowMatches opts r) with
         | f, [] => Except.ok f
         | none, [r] => Except.ok (some r)
         | none, _ :: _ :: _ => Except.error (PyExc.nameError "found_row")
         | some _, _ :: _ => Except.error (PyExc.nameError "found_row")) := by
  induction rows with
  | nil => intro found; cases found <;> rfl
  | cons row rest ih =>
    intro found
    have hrow : 8 ≤ row.length := h row (List.mem_cons_self row rest)
    have hrest : ∀ r ∈ rest, 8 ≤ r.length := fun r hr => h r (List.mem_cons_of_mem row hr)
    simp only [scanRows]
    rw [rowCheck_eq_rowMatches opts row hrow]
    by_cases hm : rowMatches opts row = true
    · rw [List.filter_cons_of_pos hm, hm]
      cases found with
      | some f => rfl
      | none =>
        show scanRows opts (some row) rest = _
        rw [ih hrest (some row)]
        cases hf : rest.filter (fun r => rowMatches opts r) with
        | nil => rfl
        | cons r' rest' => rfl
    · rw [List.filter_cons_of_neg (by simpa using hm),
          show rowMatches opts row = false by simpa using hm]
      exact ih hrest found

/-- C6 (confirmed): the inspector keeps only rows with protocol `TCP`,
state `ESTABLISHED`, and matching host portions of the endpoint cells;
zero survivors yield the `No matching TCP sessions` failure, which
`try_read_last_mss` turns into `none` (treated as "not converged yet",
not a crash); a unique survivor's MSS cell is parsed by Python `int`,
whose failure on a non-integer cell is a `ValueError`. -/
theorem C6_inspector_filters (opts : Opts) (tab : List (List String))
    (h8 : ∀ r ∈ tab, 8 ≤ r.length) :
    (tab.filter (fun r => rowMatches opts r) = [] →
      read_mss_table opts tab = Except.error (PyExc.valueError "No matching TCP sessions") ∧
      ∀ st : MainSt, try_read_last_mss st (read_mss_table opts tab) = (st, none)) ∧
    (∀ row, tab.filter (fun r => rowMatches opts r) = [row] →
      read_mss_table opts tab = pyIntParse ((row[7]?).getD "")) := by
  constructor
  · intro hf
    have hs := scanRows_characterisation opts tab h8 none
    rw [hf] at hs
    have herr : read_mss_table opts tab
        = Except.error (PyExc.valueError "No matching TCP sessions") := by
      unfold read_mss_table
      simp only [hs]
    exact ⟨herr, fun st => by rw [herr]; rfl⟩
  · intro row hf
    have hs := scanRows_characterisation opts tab h8 none
    rw [hf] at hs
    have hmem : row ∈ tab := by
      have hmf : row ∈ tab.filter (fun r => rowMatches opts r) := by
        rw [hf]; exact List.mem_singleton_self row
      exact List.mem_of_mem_filter hmf
    have hlen : 8 ≤ row.length := h8 row hmem
    have h7 : row[7]? = some row[7] := List.getElem?_eq_getElem (by omega)
    unfold read_mss_table
    simp only [hs, h7, Option.getD_some]

/-- Witness for C6: the unique-survivor case at a one-row table and the
no-survivor case at the empty table. -/
theorem C6_inspector_filters_witness :
    read_mss_table defaultOpts [demoRow] = pyIntParse ((demoRow[7]?).getD "") ∧
    read_mss_table defaultOpts [] = Except.error (PyExc.valueError "No matching TCP sessions") ∧
    try_read_last_mss ⟨none⟩ (read_mss_table defaultOpts []) = (⟨none⟩, none) := by
  refine ⟨?_, ?_, ?_⟩
  · exact (C6_inspector_filters defaultOpts [demoRow] (by decide)).2 demoRow (by decide)
  · exact ((C6_inspector_filters defaultOpts [] (by decide)).1 rfl).1
  · exact ((C6_inspector_filters defaultOpts [] (by decide)).1 rfl).2 ⟨none⟩

/-- C9 (confirmed): a second surviving row makes the inspection raise,
but the raised exception is the `NameError` from evaluating the unbound
name `found_row` while building the exception message's format
arguments; the intended `Multiple matching TCP sessions` exception is
never constructed. -/
theorem C9_second_match_is_nameerror (opts : Opts) (tab : List (List String))
    (h8 : ∀ r ∈ tab, 8 ≤ r.length)
    (h2 : 2 ≤ (tab.filter (fun r => rowMatches opts r)).length) :
    read_mss_table opts tab = Except.error (PyExc.nameError "found_row") := by
  have hs := scanRows_characterisation opts tab h8 none
  unfold read_mss_table
  cases hf : tab.filter (fun r => rowMatches opts r) with
  | nil => rw [hf] at h2; simp at h2
  | cons a t =>
    cases t with
    | nil => rw [hf] at h2; simp at h2
    | cons b t' =>
      rw [hf] at hs
      simp only [hs]

/-- Witness for C9 at a two-matching-row table. -/
theorem C9_second_match_is_nameerror_witness :
    read_mss_table defaultOpts [demoRow, demoRow2]
      = Except.error (PyExc.nameError "found_row") :=
  C9_second_match_is_nameerror defaultOpts [demoRow, demoRow2] (by decide) (by decide)

/-!
## Lemmas: the poll loop and the orchestrator
-/

/-- A failed read leaves the state untouched and makes the high-MSS
check return Python `None`. -/
theorem check_himss_reached_error (opts : Opts) (st : MainSt) (s : Sample) (e : PyExc)
    (h : read_last_mss opts s = Except.error e) :
    check_himss_reached opts st s = (st, PyVal.pyNone) := by
  unfold check_himss_reached
  rw [h]
  rfl

/-- A poll loop all of whose samples fail leaves the state untouched
and times out. -/
theorem waiting_wait_all_errors (opts : Opts) :
    ∀ (s : List Sample) (st : MainSt) (fuel : Nat),
      (∀ r ∈ s, ∃ e, read_last_mss opts r = Except.error e) →
      waiting_wait (check_himss_reached opts) st s fuel = (st, false) := by
  intro s
  induction s with
  | nil => intro st fuel h; cases fuel <;> rfl
  | cons r rest ih =>
    intro st fuel h
    cases fuel with
    | zero => rfl
    | succ fuel =>
      obtain ⟨e, he⟩ := h r (List.mem_cons_self r rest)
      have hc : check_himss_reached opts st r = (st, PyVal.pyNone) :=
        check_himss_reached_error opts st r e he
      simp only [waiting_wait]
      rw [hc]
      exact ih st fuel (fun x hx => h x (List.mem_cons_of_mem r hx))

/-- A phase-1 poll loop that never becomes truthy aborts the run right
there: the trace stops at the first poll and the abort flag is set. -/
theorem run_pmtu_test_aborts_phase1 (opts : Opts) (st0 : MainSt) (s1 s2 s3 : List Sample)
    (h : (waiting_wait (check_himss_reached opts) st0 s1 opts.timeout_himss_reached).2 = false) :
    run_pmtu_test opts st0 s1 s2 s3 =
      ⟨(waiting_wait (check_himss_reached opts) st0 s1 opts.timeout_himss_reached).1,
       [Event.bgpSummary "server", Event.bgpSummary "client", Event.setPmtu opts.himtu]
         ++ clear_events opts ++ [Event.poll 1], true⟩ := by
  simp only [run_pmtu_test, h]
  simp

/-- C1 (corrected): the claim says a poll sample that finds more than
one matching session aborts the whole run; in the code the exception
raised for the second match (like every exception from a poll sample)
is caught by `try_read_last_mss`'s bare `except:` and treated as a
missing sample, so the poll loop simply moves on to the next tick.
Amended: an ambiguous sample yields Python `None` for the check, leaves
the state unchanged, and polling continues. -/
theorem C1_ambiguous_sample_swallowed (opts : Opts) (st : MainSt) (s : Sample)
    (rest : List Sample) (fuel : Nat)
    (h : ∃ e, read_last_mss opts s = Except.error e) :
    check_himss_reached opts st s = (st, PyVal.pyNone) ∧
    waiting_wait (check_himss_reached opts) st (s :: rest) (fuel + 1)
      = waiting_wait (check_himss_reached opts) st rest fuel := by
  obtain ⟨e, he⟩ := h
  have hc := check_himss_reached_error opts st s e he
  refine ⟨hc, ?_⟩
  simp only [waiting_wait]
  rw [hc]
  rfl

/-- Witness for C1's amended statement at the concrete ambiguous
two-row output. -/
theorem C1_ambiguous_sample_swallowed_witness :
    check_himss_reached defaultOpts ⟨none⟩ (Except.ok outAmbiguous) = (⟨none⟩, PyVal.pyNone) ∧
    waiting_wait (check_himss_reached defaultOpts) ⟨none⟩
        [Except.ok outAmbiguous, Except.ok out9000] 30
      = waiting_wait (check_himss_reached defaultOpts) ⟨none⟩ [Except.ok out9000] 29 :=
  C1_ambiguous_sample_swallowed defaultOpts ⟨none⟩ (Except.ok outAmbiguous)
    [Except.ok out9000] 29 ⟨PyExc.nameError "found_row", rfl⟩

/-- Counterexample to C1 as stated: a phase whose first sample is
ambiguous does not abort — the loop retries and converges on the next
sample. -/
theorem C1_counterexample_ambiguous_retried :
    read_last_mss defaultOpts (Except.ok outAmbiguous)
        = Except.error (PyExc.nameError "found_row") ∧
    waiting_wait (check_himss_reached defaultOpts) ⟨none⟩
        [Except.ok outAmbiguous, Except.ok out9000] defaultOpts.timeout_himss_reached
      = (⟨some 9000⟩, true) := ⟨rfl, rfl⟩

/-- C2 (corrected): the claim says a timed-out phase is recorded and
the run proceeds to the next phase; in the code `waiting.wait` raises
`waiting.TimeoutExpired` at the deadline, the exception propagates out
of `_verbose_wait` and `run_pmtu_test`, and the run terminates at that
phase — no later phase is configured or polled (only `main`'s
`finally:` report still runs).  Amended: a phase-1 deadline aborts the
run with no phase-2 or phase-3 events. -/
theorem C2_timeout_aborts_run (opts : Opts) (st0 : MainSt) (s1 s2 s3 : List Sample)
    (h : (waiting_wait (check_himss_reached opts) st0 s1 opts.timeout_himss_reached).2 = false) :
    (run_pmtu_test opts st0 s1 s2 s3).aborted = true ∧
    (run_pmtu_test opts st0 s1 s2 s3).events
      = [Event.bgpSummary "server", Event.bgpSummary "client", Event.setPmtu opts.himtu]
          ++ clear_events opts ++ [Event.poll 1] ∧
    Event.poll 2 ∉ (run_pmtu_test opts st0 s1 s2 s3).events ∧
    Event.poll 3 ∉ (run_pmtu_test opts st0 s1 s2 s3).events := by
  have hrun := run_pmtu_test_aborts_phase1 opts st0 s1 s2 s3 h
  refine ⟨by rw [hrun], by rw [hrun], ?_, ?_⟩ <;>
    rw [hrun] <;>
      cases hb : opts.do_clear_bgp_neighbors <;>
        simp [clear_events, hb]

/-- Witness for C2's amended statement: one failing sample and a
deadline of 30 ticks. -/
theorem C2_timeout_aborts_run_witness :
    (run_pmtu_test defaultOpts ⟨none⟩ [errSample] [] []).aborted = true ∧
    (run_pmtu_test defaultOpts ⟨none⟩ [errSample] [] []).events
      = [Event.bgpSummary "server", Event.bgpSummary "client", Event.setPmtu defaultOpts.himtu]
          ++ clear_events defaultOpts ++ [Event.poll 1] ∧
    Event.poll 2 ∉ (run_pmtu_test defaultOpts ⟨none⟩ [errSample] [] []).events ∧
    Event.poll 3 ∉ (run_pmtu_test defaultOpts ⟨none⟩ [errSample] [] []).events :=
  C2_timeout_aborts_run defaultOpts ⟨none⟩ [errSample] [] [] (by decide)

/-- Counterexample to C2 as stated: when phase 1 times out, the run is
aborted and the low-MTU phase is never configured or polled. -/
theorem C2_counterexample_no_next_phase :
    (run_pmtu_test defaultOpts ⟨none⟩ [errSample] [] []).aborted = true ∧
    Event.setPmtu 2000 ∉ (run_pmtu_test defaultOpts ⟨none⟩ [errSample] [] []).events ∧
    Event.poll 2 ∉ (run_pmtu_test defaultOpts ⟨none⟩ [errSample] [] []).events := by decide

/-- C3 (corrected): the claim places the steady pause between a phase's
MTU configuration and that phase's first poll; in the code
`steady_sleep()` runs after a phase's poll loop completes (after phases
1 and 2 only), i.e. immediately before the next phase's configuration,
and no pause ever separates a `setPmtu` from its phase's poll.
Amended: in a run whose first two phases converge, the trace is
configure, poll, pause, configure, poll, pause, configure, poll — the
pause events sit after the polls, never between a configure and its
poll. -/
theorem C3_pause_after_poll (opts : Opts) (st0 : MainSt) (s1 s2 s3 : List Sample)
    (h1 : (waiting_wait (check_himss_reached opts) st0 s1 opts.timeout_himss_reached).2 = true)
    (h2 : (waiting_wait (check_lomss_reached opts)
            (waiting_wait (check_himss_reached opts) st0 s1 opts.timeout_himss_reached).1
            s2 opts.timeout_lomss_reached).2 = true) :
    (run_pmtu_test opts st0 s1 s2 s3).events
      = [Event.bgpSummary "server", Event.bgpSummary "client", Event.setPmtu opts.himtu]
          ++ clear_events opts ++ [Event.poll 1]
          ++ steady_events opts ++ [Event.setPmtu opts.lomtu, Event.poll 2]
          ++ steady_events opts ++ [Event.setPmtu opts.himtu, Event.poll 3] := by
  simp only [run_pmtu_test, h1, h2]
  cases (waiting_wait (check_himss_restored opts)
      (waiting_wait (check_lomss_reached opts)
        (waiting_wait (check_himss_reached opts) st0 s1 opts.timeout_himss_reached).1
        s2 opts.timeout_lomss_reached).1 s3 opts.timeout_himss_restored).2 <;>
    simp [List.append_assoc]

/-- Witness for C3's amended statement at a fully converging run. -/
theorem C3_pause_after_poll_witness :
    (run_pmtu_test defaultOpts ⟨none⟩
        [Except.ok out9000] [Except.ok out2000] [Except.ok out9000]).events
      = [Event.bgpSummary "server", Event.bgpSummary "client", Event.setPmtu defaultOpts.himtu]
          ++ clear_events defaultOpts ++ [Event.poll 1]
          ++ steady_events defaultOpts ++ [Event.setPmtu defaultOpts.lomtu, Event.poll 2]
          ++ steady_events defaultOpts ++ [Event.setPmtu defaultOpts.himtu, Event.poll 3] :=
  C3_pause_after_poll defaultOpts ⟨none⟩
    [Except.ok out9000] [Except.ok out2000] [Except.ok out9000] (by decide) (by decide)

/-- Counterexample to C3 as stated: with the pause configured
(3 seconds, non-zero), the phase-2 configuration event is immediately
followed by the phase-2 poll — no pause between them; the pauses sit
after the phase-1 and phase-2 polls, and phase 3 has none at all. -/
theorem C3_counterexample_no_pause_before_poll :
    defaultOpts.steady_sleep_time ≠ 0 ∧
    (run_pmtu_test defaultOpts ⟨none⟩
        [Except.ok out9000] [Except.ok out2000] [Except.ok out9000]).events
      = [Event.bgpSummary "server", Event.bgpSummary "client", Event.setPmtu 9100,
         Event.clearBgp, Event.poll 1, Event.sleepSteady 3, Event.setPmtu 2000,
         Event.poll 2, Event.sleepSteady 3, Event.setPmtu 9100, Event.poll 3] ∧
    ((run_pmtu_test defaultOpts ⟨none⟩
        [Except.ok out9000] [Except.ok out2000] [Except.ok out9000]).events.dropWhile
          (fun e => !(decide (e = Event.setPmtu 2000)))).take 2
      = [Event.setPmtu 2000, Event.poll 2] := by
  refine ⟨by decide, rfl, rfl⟩

/-- C7 (corrected): with the configured targets (high MTU 9100, margin
100, low MTU 2000) the high predicate is satisfied exactly when
`mss ≥ 9000` (9000 reached, 8999 not) — but the low predicate, because
the Python expression `mss and mss <= lomtu` conjoins truthiness of the
value, is satisfied exactly when `mss ≤ 2000` *and* `mss ≠ 0`
(2000 reached, 2001 not, 0 not although `0 ≤ 2000`). -/
theorem C7_threshold_predicates :
    defaultOpts.himtu = 9100 ∧ defaultOpts.mss_margin = 100 ∧ defaultOpts.lomtu = 2000 ∧
    (∀ v : Int, truthy (himss_predicate defaultOpts (some v)) = decide (9000 ≤ v)) ∧
    (∀ v : Int, truthy (lomss_predicate defaultOpts (some v))
      = (decide (v ≤ 2000) && decide (v ≠ 0))) ∧
    truthy (himss_predicate defaultOpts (some 9000)) = true ∧
    truthy (himss_predicate defaultOpts (some 8999)) = false ∧
    truthy (lomss_predicate defaultOpts (some 2000)) = true ∧
    truthy (lomss_predicate defaultOpts (some 2001)) = false := by
  refine ⟨rfl, rfl, rfl, ?_, ?_, by decide, by decide, by decide, by decide⟩
  · intro v
    by_cases hv : v = 0
    · subst hv; decide
    · have h9 : (9100 : Int) - 100 = 9000 := by norm_num
      simp [himss_predicate, truthy, hv, defaultOpts, h9]
  · intro v
    by_cases hv : v = 0
    · subst hv; decide
    · simp [lomss_predicate, truthy, hv, defaultOpts]

/-- Counterexample to C7 as stated: an observed MSS of 0 satisfies
`0 ≤ 2000` yet the low predicate reports not-reached. -/
theorem C7_counterexample_zero_mss :
    try_read_last_mss ⟨none⟩ (read_last_mss defaultOpts (Except.ok outMss0))
      = (⟨some 0⟩, some 0) ∧
    truthy (lomss_predicate defaultOpts (some 0)) = false ∧
    (0 : Int) ≤ defaultOpts.lomtu := ⟨rfl, rfl, by decide⟩

/-- C8 (confirmed): a failed poll read leaves `last_mss_value`
untouched; `main`'s `finally:` reports the run's final value whatever
the outcome; in particular a run whose every phase-1 sample fails
aborts with the initial value still intact and reported. -/
theorem C8_last_mss_kept_and_reported :
    (∀ (st : MainSt) (e : PyExc), try_read_last_mss st (Except.error e) = (st, none)) ∧
    (∀ (opts : Opts) (st0 : MainSt) (s1 s2 s3 : List Sample),
      (main_report opts st0 s1 s2 s3).2
        = (run_pmtu_test opts st0 s1 s2 s3).st.last_mss_value) ∧
    (∀ (opts : Opts) (st0 : MainSt) (s1 s2 s3 : List Sample),
      (∀ r ∈ s1, ∃ e, read_last_mss opts r = Except.error e) →
      (main_report opts st0 s1 s2 s3).2 = st0.last_mss_value ∧
      (main_report opts st0 s1 s2 s3).1.aborted = true) := by
  refine ⟨fun st e => rfl, fun _ _ _ _ _ => rfl, ?_⟩
  intro opts st0 s1 s2 s3 h
  have hw : waiting_wait (check_himss_reached opts) st0 s1 opts.timeout_himss_reached
      = (st0, false) := waiting_wait_all_errors opts s1 st0 opts.timeout_himss_reached h
  have h2 : (waiting_wait (check_himss_reached opts) st0 s1 opts.timeout_himss_reached).2
      = false := by rw [hw]
  have hrun := run_pmtu_test_aborts_phase1 opts st0 s1 s2 s3 h2
  constructor
  · show (run_pmtu_test opts st0 s1 s2 s3).st.last_mss_value = st0.last_mss_value
    rw [hrun]
    show (waiting_wait (check_himss_reached opts) st0 s1 opts.timeout_himss_reached).1.last_mss_value
      = st0.last_mss_value
    rw [hw]
  · show (run_pmtu_test opts st0 s1 s2 s3).aborted = true
    rw [hrun]

/-- Witness for C8: a run started with a remembered value 1400 whose
only sample fails still reports 1400 after aborting. -/
theorem C8_last_mss_kept_and_reported_witness :
    try_read_last_mss ⟨some 1400⟩ (Except.error (PyExc.dnosError "DNOS CLI ERROR: "))
      = (⟨some 1400⟩, none) ∧
    (main_report defaultOpts ⟨some 1400⟩ [errSample] [] []).2 = some 1400 ∧
    (main_report defaultOpts ⟨some 1400⟩ [errSample] [] []).1.aborted = true := by
  have h : ∀ r ∈ [errSample], ∃ e, read_last_mss defaultOpts r = Except.error e := by
    intro r hr
    have hre : r = errSample := by simpa using hr
    subst hre
    exact ⟨PyExc.dnosError "DNOS CLI ERROR: ", rfl⟩
  have hmain := (C8_last_mss_kept_and_reported).2.2 defaultOpts ⟨some 1400⟩ [errSample] [] [] h
  exact ⟨(C8_last_mss_kept_and_reported).1 ⟨some 1400⟩ (PyExc.dnosError "DNOS CLI ERROR: "),
    hmain.1, hmain.2⟩

/-- C10 (confirmed): an observed MSS of 0 makes both threshold
predicates report not-reached (the conjoined truthiness of the value
short-circuits to the falsy `0` itself) even though `0 ≤ 2000`; and a
sample whose read fails makes the checks return Python `None` — a
non-`True` result, not a crash. -/
theorem C10_zero_mss_and_failed_reads :
    lomss_predicate defaultOpts (some 0) = PyVal.pyInt 0 ∧
    himss_predicate defaultOpts (some 0) = PyVal.pyInt 0 ∧
    truthy (PyVal.pyInt 0) = false ∧
    (0 : Int) ≤ defaultOpts.lomtu ∧
    (∀ (opts : Opts) (st : MainSt) (e : PyExc),
      check_lomss_reached opts st (Except.error e) = (st, PyVal.pyNone) ∧
      check_himss_reached opts st (Except.error e) = (st, PyVal.pyNone)) ∧
    truthy PyVal.pyNone = false := by
  refine ⟨by decide, by decide, rfl, by decide, ?_, rfl⟩
  intro opts st e
  exact ⟨rfl, rfl⟩
